import Mathlib

/-!
Shallow embedding of the LookingUp API backend (src/api.py).

The embedding models the data contracts (key records, subscriptions, usage
logs, daily counters, verification results), the external Store and Verifier
collaborators, and the four request handlers carrying the decision logic:
`verify_api_key`, `verify_email`, `verify_bulk`, `find_email` and `get_usage`.

Store calls are modelled as explicit state passing over a `Store` value that
also carries per-operation failure flags; a flagged operation raises, which
the handlers translate to an HTTP 500 exactly as the Python `except Exception`
blocks do.  Verifier calls are modelled by a `Verifier` record of functions
supplied as a parameter (the engine is an external black box).  Each handler
that loops over emails additionally returns the ordered list of emails that
were actually passed to `Verifier.verify`, so that claims about which
candidates were probed can be stated.
-/

namespace LookingUp

/-- Result record produced by the external Verifier for one email, with the
tri-state `smtp_verified` and `is_catch_all` fields as `Option Bool`. -/
structure VerificationResult where
  email : String
  status : String
  deliverable : Bool
  confidence_score : Int
  syntax_valid : Bool
  domain_exists : Bool
  mx_records_exist : Bool
  smtp_verified : Option Bool
  is_catch_all : Option Bool
  is_disposable : Bool
  is_role_based : Bool
  is_free_provider : Bool
  details : List String
deriving DecidableEq

/-- The pydantic `VerificationResponse` model returned by the endpoints: a
field-by-field copy of a `VerificationResult`. -/
structure VerificationResponse where
  email : String
  status : String
  deliverable : Bool
  confidence_score : Int
  syntax_valid : Bool
  domain_exists : Bool
  mx_records_exist : Bool
  smtp_verified : Option Bool
  is_catch_all : Option Bool
  is_disposable : Bool
  is_role_based : Bool
  is_free_provider : Bool
  details : List String
deriving DecidableEq

/-- The literal field-by-field construction of a `VerificationResponse` from a
verifier result, as written inline in each endpoint of api.py. -/
def toResponse (r : VerificationResult) : VerificationResponse :=
  { email := r.email
    status := r.status
    deliverable := r.deliverable
    confidence_score := r.confidence_score
    syntax_valid := r.syntax_valid
    domain_exists := r.domain_exists
    mx_records_exist := r.mx_records_exist
    smtp_verified := r.smtp_verified
    is_catch_all := r.is_catch_all
    is_disposable := r.is_disposable
    is_role_based := r.is_role_based
    is_free_provider := r.is_free_provider
    details := r.details }

/-- Row of the `api_keys` table. -/
structure KeyRecord where
  id : Nat
  key_hash : String
  user_id : Nat
  is_active : Bool
  last_used_at : Option String
deriving DecidableEq

/-- Row of the `subscriptions` table. -/
structure Subscription where
  user_id : Nat
  plan_type : String
  status : String
deriving DecidableEq

/-- The dict returned by `verify_api_key` on success. -/
structure AuthContext where
  user_id : Nat
  api_key_id : Nat
  subscription : Subscription
deriving DecidableEq

/-- Row of the append-only `usage_logs` table. -/
structure UsageLog where
  user_id : Nat
  api_key_id : Nat
  operation_type : String
  email_count : Nat
  success : Bool
deriving DecidableEq

/-- Row of the `daily_usage` table: per (user, UTC day) counters. -/
structure DailyUsageRow where
  user_id : Nat
  date : String
  verify_count : Nat
  find_count : Nat
  total_count : Nat
deriving DecidableEq

/-- FastAPI `HTTPException` payload: status code and detail string. -/
structure HTTPException where
  status_code : Nat
  detail : String
deriving DecidableEq

/-- The external Store (Supabase) state: the four tables the core touches,
plus one failure flag per Store operation.  A set flag makes that operation
raise, modelling a transient Store failure. -/
structure Store where
  api_keys : List KeyRecord
  subscriptions : List Subscription
  usage_logs : List UsageLog
  daily_usage : List DailyUsageRow
  fail_key_lookup : Bool
  fail_sub_lookup : Bool
  fail_touch : Bool
  fail_log_insert : Bool
  fail_usage_increment : Bool
  fail_usage_read : Bool
deriving DecidableEq

/-- Pure content of the active-key query: filter `api_keys` by `key_hash` and
`is_active = true` and take the first row (`result.data[0]`). -/
def Store.activeKey (s : Store) (digest : String) : Option KeyRecord :=
  s.api_keys.find? (fun k => k.key_hash == digest && k.is_active)

/-- Store call behind `supabase.table(api_keys).select...eq...execute()`. -/
def Store.findActiveKey (s : Store) (digest : String) :
    Except String (Option KeyRecord) :=
  if s.fail_key_lookup then .error "store error" else .ok (s.activeKey digest)

/-- Pure content of the subscription query: first `subscriptions` row whose
`user_id` matches. -/
def Store.subFor (s : Store) (uid : Nat) : Option Subscription :=
  s.subscriptions.find? (fun sub => sub.user_id == uid)

/-- Store call behind the `subscriptions` select. -/
def Store.findSubscription (s : Store) (uid : Nat) :
    Except String (Option Subscription) :=
  if s.fail_sub_lookup then .error "store error" else .ok (s.subFor uid)

/-- Store call behind the `last_used_at` update on the matched key row. -/
def Store.touchKey (s : Store) (keyId : Nat) (now : String) :
    Except String Store :=
  if s.fail_touch then .error "store error"
  else .ok { s with api_keys := s.api_keys.map (fun k =>
    if k.id == keyId then { k with last_used_at := some now } else k) }

/-- Store call behind the `usage_logs` insert. -/
def Store.appendLog (s : Store) (entry : UsageLog) : Except String Store :=
  if s.fail_log_insert then .error "store error"
  else .ok { s with usage_logs := s.usage_logs ++ [entry] }

/-- Store call behind the `increment_daily_usage` RPC.  Modelled from the
spec: the stored procedure itself lives in the database, not under src/; per
the Store contract it atomically adds the per-counter deltas to the row for
the caller and the current day, creating the row if absent. -/
def Store.incrementDaily (s : Store) (uid : Nat) (date : String)
    (dv df : Nat) : Except String Store :=
  if s.fail_usage_increment then .error "store error"
  else if (s.daily_usage.find? (fun r => r.user_id == uid && r.date == date)).isSome then
    .ok { s with daily_usage := s.daily_usage.map (fun r =>
      if r.user_id == uid && r.date == date then
        { r with verify_count := r.verify_count + dv
                 find_count := r.find_count + df
                 total_count := r.total_count + dv + df }
      else r) }
  else
    .ok { s with daily_usage :=
      s.daily_usage ++ [⟨uid, date, dv, df, dv + df⟩] }

/-- The external Verifier engine, a black box: single-email verification
(which may raise, e.g. on network failure) and pattern-candidate generation.
Each generated candidate is its email string (`pattern_info` in api.py). -/
structure Verifier where
  verify : String → Bool → Bool → Except String VerificationResult
  generate_email_patterns : String → String → String → List String

/-- The `verify_api_key` dependency of api.py.  Takes the digest function
(sha256 hex in the Python) as a parameter.  Returns the outcome together with
the resulting Store state; every non-HTTP exception raised inside the `try`
block (any Store failure, including one from the last-used update) is turned
into a 500 by the trailing `except Exception` clause. -/
def verify_api_key (digest : String → String) (now : String) (s : Store)
    (x_api_key : String) : Except HTTPException AuthContext × Store :=
  match s.findActiveKey (digest x_api_key) with
  | .error e => (.error ⟨500, e⟩, s)
  | .ok none => (.error ⟨401, "Invalid API key"⟩, s)
  | .ok (some key) =>
    match s.findSubscription key.user_id with
    | .error e => (.error ⟨500, e⟩, s)
    | .ok none => (.error ⟨403, "No active subscription"⟩, s)
    | .ok (some sub) =>
      if sub.plan_type ≠ "pro" then
        (.error ⟨403, "API access requires Pro plan"⟩, s)
      else if sub.status ∉ (["active", "trial"] : List String) then
        (.error ⟨403, "Subscription not active"⟩, s)
      else
        match s.touchKey key.id now with
        | .error e => (.error ⟨500, e⟩, s)
        | .ok s1 => (.ok ⟨key.user_id, key.id, sub⟩, s1)

/-- The `/verify` handler body after authentication: verify one email, append
one usage log, increment the daily verify counter, return the response.  Any
raised exception becomes a 500 with the exception text. -/
def verify_email (v : Verifier) (s : Store) (auth : AuthContext)
    (email : String) (check_smtp check_catch_all : Bool) (today : String) :
    Except HTTPException VerificationResponse × Store :=
  match v.verify email check_smtp check_catch_all with
  | .error e => (.error ⟨500, e⟩, s)
  | .ok result =>
    match s.appendLog ⟨auth.user_id, auth.api_key_id, "verify", 1, true⟩ with
    | .error e => (.error ⟨500, e⟩, s)
    | .ok s1 =>
      match s1.incrementDaily auth.user_id today 1 0 with
      | .error e => (.error ⟨500, e⟩, s1)
      | .ok s2 => (.ok (toResponse result), s2)

/-- The bulk loop of `/verify/bulk`: verify each email in input order,
collecting responses; a verifier failure aborts the remaining batch.  Also
returns the ordered list of emails actually passed to `Verifier.verify`. -/
def bulkVerify (v : Verifier) (cs cca : Bool) :
    List String → Except String (List VerificationResponse) × List String
  | [] => (.ok [], [])
  | e :: es =>
    match v.verify e cs cca with
    | .error err => (.error err, [e])
    | .ok r =>
      match bulkVerify v cs cca es with
      | (.error err, probed) => (.error err, e :: probed)
      | (.ok rs, probed) => (.ok (toResponse r :: rs), e :: probed)

/-- The `/verify/bulk` handler body after authentication: reject batches over
1000 emails with a 400 before any Verifier call or usage record, otherwise run
the bulk loop and then record usage once.  The third component is the ordered
list of emails passed to `Verifier.verify`. -/
def verify_bulk (v : Verifier) (s : Store) (auth : AuthContext)
    (emails : List String) (cs cca : Bool) (today : String) :
    Except HTTPException (List VerificationResponse) × Store × List String :=
  if emails.length > 1000 then
    (.error ⟨400, "Maximum 1000 emails per request"⟩, s, [])
  else
    match bulkVerify v cs cca emails with
    | (.error e, probed) => (.error ⟨500, e⟩, s, probed)
    | (.ok results, probed) =>
      match s.appendLog
          ⟨auth.user_id, auth.api_key_id, "bulk_verify", emails.length, true⟩ with
      | .error e => (.error ⟨500, e⟩, s, probed)
      | .ok s1 =>
        match s1.incrementDaily auth.user_id today emails.length 0 with
        | .error e => (.error ⟨500, e⟩, s1, probed)
        | .ok s2 => (.ok results, s2, probed)

/-- The best-candidate update of the discovery loop: replace `best` only when
it is unset or the new confidence score is strictly greater. -/
def betterOf (best : Option (String × VerificationResult)) (e : String)
    (r : VerificationResult) : Option (String × VerificationResult) :=
  match best with
  | none => some (e, r)
  | some b =>
    if r.confidence_score > b.2.confidence_score then some (e, r)
    else some b

/-- The candidate loop of `/find`: verify each candidate with SMTP and
catch-all checks on; return immediately on a definitive `smtp_verified`,
otherwise keep the strict-greater best.  Also returns the ordered list of
candidate emails actually passed to `Verifier.verify`. -/
def findScan (v : Verifier) (best : Option (String × VerificationResult)) :
    List String →
    Except String (Option (String × VerificationResult)) × List String
  | [] => (.ok best, [])
  | email :: rest =>
    match v.verify email true true with
    | .error e => (.error e, [email])
    | .ok result =>
      if result.smtp_verified = some true then
        (.ok (some (email, result)), [email])
      else
        match findScan v (betterOf best email result) rest with
        | (r, probed) => (r, email :: probed)

/-- The `/find` handler body after authentication: generate candidates, scan
them, 404 when no candidate produced a result, otherwise record usage and
return the best result.  The third component is the ordered list of candidate
emails passed to `Verifier.verify`. -/
def find_email (v : Verifier) (s : Store) (auth : AuthContext)
    (first_name last_name domain : String) (today : String) :
    Except HTTPException VerificationResponse × Store × List String :=
  match findScan v none (v.generate_email_patterns first_name last_name domain) with
  | (.error e, probed) => (.error ⟨500, e⟩, s, probed)
  | (.ok none, probed) => (.error ⟨404, "Could not find email"⟩, s, probed)
  | (.ok (some (_, best)), probed) =>
    match s.appendLog ⟨auth.user_id, auth.api_key_id, "find", 1, true⟩ with
    | .error e => (.error ⟨500, e⟩, s, probed)
    | .ok s1 =>
      match s1.incrementDaily auth.user_id today 0 1 with
      | .error e => (.error ⟨500, e⟩, s1, probed)
      | .ok s2 => (.ok (toResponse best), s2, probed)

/-- The `daily_limit` field of the `/usage` response is either the string
`unlimited` or a numeric cap. -/
inductive LimitValue
  | unlimited
  | count (n : Nat)
deriving DecidableEq

/-- The `/usage` response body. -/
structure UsageResponse where
  plan : String
  status : String
  verifications : Nat
  finds : Nat
  total : Nat
  daily_limit : LimitValue
  rate_limit : String
deriving DecidableEq

/-- The `/usage` handler body after authentication: read the caller's row for
today (all-zero when absent) and report plan, counters and limits. -/
def get_usage (s : Store) (auth : AuthContext) (today : String) :
    Except HTTPException UsageResponse :=
  if s.fail_usage_read then .error ⟨500, "store error"⟩
  else
    let row := s.daily_usage.find?
      (fun r => r.user_id == auth.user_id && r.date == today)
    .ok { plan := auth.subscription.plan_type
          status := auth.subscription.status
          verifications := match row with | some r => r.verify_count | none => 0
          finds := match row with | some r => r.find_count | none => 0
          total := match row with | some r => r.total_count | none => 0
          daily_limit :=
            if auth.subscription.plan_type ≠ "free" then .unlimited
            else .count 100
          rate_limit := "60 requests/minute" }

/-- Pure functional content of the discovery loop when no candidate is
SMTP-confirmed: fold the strict-greater best update over the (candidate,
result) pairs. -/
def selectBest (best : Option (String × VerificationResult)) :
    List (String × VerificationResult) → Option (String × VerificationResult)
  | [] => best
  | x :: rest => selectBest (betterOf best x.1 x.2) rest

/-- Concrete verification result used by witnesses. -/
def wResult (email : String) (score : Int) (smtp : Option Bool) :
    VerificationResult :=
  { email := email
    status := "risky"
    deliverable := true
    confidence_score := score
    syntax_valid := true
    domain_exists := true
    mx_records_exist := true
    smtp_verified := smtp
    is_catch_all := none
    is_disposable := false
    is_role_based := false
    is_free_provider := false
    details := [] }

/-- Store fixture for witnesses: one active key with digest h owned by user 7,
who holds an active pro subscription; every Store operation healthy. -/
def baseStore : Store :=
  { api_keys := [{ id := 1, key_hash := "h", user_id := 7, is_active := true,
                   last_used_at := none }]
    subscriptions := [{ user_id := 7, plan_type := "pro", status := "active" }]
    usage_logs := []
    daily_usage := []
    fail_key_lookup := false
    fail_sub_lookup := false
    fail_touch := false
    fail_log_insert := false
    fail_usage_increment := false
    fail_usage_read := false }

/-- The auth context produced by `verify_api_key` on `baseStore`. -/
def wAuth : AuthContext :=
  { user_id := 7
    api_key_id := 1
    subscription := { user_id := 7, plan_type := "pro", status := "active" } }

/-- Verifier fixture with three known candidates scoring 80, 90, 85, none
SMTP-confirmed. -/
def wFindVerifier : Verifier :=
  { verify := fun e _ _ =>
      if e = "a@x.co" then .ok (wResult "a@x.co" 80 none)
      else if e = "b@x.co" then .ok (wResult "b@x.co" 90 none)
      else if e = "c@x.co" then .ok (wResult "c@x.co" 85 none)
      else .error "unknown"
    generate_email_patterns := fun _ _ _ => ["a@x.co", "b@x.co", "c@x.co"] }

/-- Verifier fixture whose first candidate is SMTP-confirmed with a low score
while every later candidate scores higher. -/
def wHitVerifier : Verifier :=
  { verify := fun e _ _ =>
      if e = "a@x.co" then .ok (wResult "a@x.co" 10 (some true))
      else .ok (wResult e 99 none)
    generate_email_patterns := fun _ _ _ => ["a@x.co", "b@x.co"] }

/-- Verifier fixture generating no candidates at all. -/
def wEmptyVerifier : Verifier :=
  { verify := fun _ _ _ => .error "unreachable"
    generate_email_patterns := fun _ _ _ => [] }

/-- The results `wFindVerifier` produces for its three candidates. -/
def wScores : List VerificationResult :=
  [wResult "a@x.co" 80 none, wResult "b@x.co" 90 none,
    wResult "c@x.co" 85 none]

/-- The `/usage` response produced on `baseStore` for `wAuth`. -/
def wUsageResp : UsageResponse :=
  { plan := "pro"
    status := "active"
    verifications := 0
    finds := 0
    total := 0
    daily_limit := .unlimited
    rate_limit := "60 requests/minute" }

/-! Helper lemmas: one equation per branch of `verify_api_key`. -/

theorem vak_key_fail (digest : String → String) (now : String) (s : Store)
    (cred : String) (h : s.fail_key_lookup = true) :
    verify_api_key digest now s cred = (.error ⟨500, "store error"⟩, s) := by
  simp [verify_api_key, Store.findActiveKey, h]

theorem vak_no_key (digest : String → String) (now : String) (s : Store)
    (cred : String) (hk : s.fail_key_lookup = false)
    (h : s.activeKey (digest cred) = none) :
    verify_api_key digest now s cred = (.error ⟨401, "Invalid API key"⟩, s) := by
  simp [verify_api_key, Store.findActiveKey, hk, h]

theorem vak_sub_fail (digest : String → String) (now : String) (s : Store)
    (cred : String) (k : KeyRecord) (hk : s.fail_key_lookup = false)
    (hkey : s.activeKey (digest cred) = some k)
    (h : s.fail_sub_lookup = true) :
    verify_api_key digest now s cred = (.error ⟨500, "store error"⟩, s) := by
  simp [verify_api_key, Store.findActiveKey, Store.findSubscription, hk, hkey, h]

theorem vak_no_sub (digest : String → String) (now : String) (s : Store)
    (cred : String) (k : KeyRecord) (hk : s.fail_key_lookup = false)
    (hs : s.fail_sub_lookup = false)
    (hkey : s.activeKey (digest cred) = some k)
    (h : s.subFor k.user_id = none) :
    verify_api_key digest now s cred =
      (.error ⟨403, "No active subscription"⟩, s) := by
  simp [verify_api_key, Store.findActiveKey, Store.findSubscription, hk, hs,
    hkey, h]

theorem vak_not_pro (digest : String → String) (now : String) (s : Store)
    (cred : String) (k : KeyRecord) (sub : Subscription)
    (hk : s.fail_key_lookup = false) (hs : s.fail_sub_lookup = false)
    (hkey : s.activeKey (digest cred) = some k)
    (hsub : s.subFor k.user_id = some sub)
    (h : sub.plan_type ≠ "pro") :
    verify_api_key digest now s cred =
      (.error ⟨403, "API access requires Pro plan"⟩, s) := by
  simp [verify_api_key, Store.findActiveKey, Store.findSubscription, hk, hs,
    hkey, hsub, h]

theorem vak_bad_status (digest : String → String) (now : String) (s : Store)
    (cred : String) (k : KeyRecord) (sub : Subscription)
    (hk : s.fail_key_lookup = false) (hs : s.fail_sub_lookup = false)
    (hkey : s.activeKey (digest cred) = some k)
    (hsub : s.subFor k.user_id = some sub)
    (hpro : sub.plan_type = "pro")
    (h : sub.status ≠ "active") (h2 : sub.status ≠ "trial") :
    verify_api_key digest now s cred =
      (.error ⟨403, "Subscription not active"⟩, s) := by
  simp [verify_api_key, Store.findActiveKey, Store.findSubscription, hk, hs,
    hkey, hsub, hpro, h, h2]

theorem vak_touch_fail (digest : String → String) (now : String) (s : Store)
    (cred : String) (k : KeyRecord) (sub : Subscription)
    (hk : s.fail_key_lookup = false) (hs : s.fail_sub_lookup = false)
    (hkey : s.activeKey (digest cred) = some k)
    (hsub : s.subFor k.user_id = some sub)
    (hpro : sub.plan_type = "pro")
    (hst : sub.status = "active" ∨ sub.status = "trial")
    (ht : s.fail_touch = true) :
    verify_api_key digest now s cred = (.error ⟨500, "store error"⟩, s) := by
  rcases hst with hst | hst <;>
  simp [verify_api_key, Store.findActiveKey, Store.findSubscription,
    Store.touchKey, hk, hs, hkey, hsub, hpro, hst, ht]

theorem vak_success (digest : String → String) (now : String) (s : Store)
    (cred : String) (k : KeyRecord) (sub : Subscription)
    (hk : s.fail_key_lookup = false) (hs : s.fail_sub_lookup = false)
    (hkey : s.activeKey (digest cred) = some k)
    (hsub : s.subFor k.user_id = some sub)
    (hpro : sub.plan_type = "pro")
    (hst : sub.status = "active" ∨ sub.status = "trial")
    (ht : s.fail_touch = false) :
    verify_api_key digest now s cred =
      (.ok ⟨k.user_id, k.id, sub⟩,
        { s with api_keys := s.api_keys.map (fun kr =>
            if kr.id == k.id then { kr with last_used_at := some now }
            else kr) }) := by
  rcases hst with hst | hst <;>
  simp [verify_api_key, Store.findActiveKey, Store.findSubscription,
    Store.touchKey, hk, hs, hkey, hsub, hpro, hst, ht]

/-- Inversion: a successful authentication pins the shape of the context. -/
theorem vak_ok_inv (digest : String → String) (now : String) (s : Store)
    (cred : String) (ctx : AuthContext)
    (h : (verify_api_key digest now s cred).1 = .ok ctx) :
    ∃ k, s.activeKey (digest cred) = some k ∧
      s.subFor k.user_id = some ctx.subscription ∧
      ctx.subscription.plan_type = "pro" ∧
      (ctx.subscription.status = "active" ∨ ctx.subscription.status = "trial") ∧
      ctx.user_id = k.user_id ∧ ctx.api_key_id = k.id := by
  cases hfk : s.fail_key_lookup with
  | true => rw [vak_key_fail digest now s cred hfk] at h; simp at h
  | false =>
  cases hak : s.activeKey (digest cred) with
  | none => rw [vak_no_key digest now s cred hfk hak] at h; simp at h
  | some k =>
  cases hfs : s.fail_sub_lookup with
  | true => rw [vak_sub_fail digest now s cred k hfk hak hfs] at h; simp at h
  | false =>
  cases hsub : s.subFor k.user_id with
  | none => rw [vak_no_sub digest now s cred k hfk hfs hak hsub] at h; simp at h
  | some sub =>
  by_cases hpro : sub.plan_type = "pro"
  case neg =>
    rw [vak_not_pro digest now s cred k sub hfk hfs hak hsub hpro] at h
    simp at h
  case pos =>
  by_cases hact : sub.status = "active"
  case neg =>
    by_cases htr : sub.status = "trial"
    case neg =>
      rw [vak_bad_status digest now s cred k sub hfk hfs hak hsub hpro hact htr]
        at h
      simp at h
    case pos =>
      cases hft : s.fail_touch with
      | true =>
        rw [vak_touch_fail digest now s cred k sub hfk hfs hak hsub hpro
          (Or.inr htr) hft] at h
        simp at h
      | false =>
        rw [vak_success digest now s cred k sub hfk hfs hak hsub hpro
          (Or.inr htr) hft] at h
        simp at h
        exact ⟨k, rfl, by rw [← h, hsub], by rw [← h]; exact hpro,
          by rw [← h]; exact Or.inr htr, by rw [← h], by rw [← h]⟩
  case pos =>
    cases hft : s.fail_touch with
    | true =>
      rw [vak_touch_fail digest now s cred k sub hfk hfs hak hsub hpro
        (Or.inl hact) hft] at h
      simp at h
    | false =>
      rw [vak_success digest now s cred k sub hfk hfs hak hsub hpro
        (Or.inl hact) hft] at h
      simp at h
      exact ⟨k, rfl, by rw [← h, hsub], by rw [← h]; exact hpro,
        by rw [← h]; exact Or.inl hact, by rw [← h], by rw [← h]⟩

/-- `verify_api_key` never touches the usage tables, whatever the outcome. -/
theorem vak_usage_tables (digest : String → String) (now : String) (s : Store)
    (cred : String) :
    (verify_api_key digest now s cred).2.usage_logs = s.usage_logs ∧
    (verify_api_key digest now s cred).2.daily_usage = s.daily_usage := by
  cases hfk : s.fail_key_lookup with
  | true => simp [vak_key_fail digest now s cred hfk]
  | false =>
    cases hak : s.activeKey (digest cred) with
    | none => simp [vak_no_key digest now s cred hfk hak]
    | some k =>
      cases hfs : s.fail_sub_lookup with
      | true => simp [vak_sub_fail digest now s cred k hfk hak hfs]
      | false =>
        cases hsub : s.subFor k.user_id with
        | none => simp [vak_no_sub digest now s cred k hfk hfs hak hsub]
        | some sub =>
          by_cases hpro : sub.plan_type = "pro"
          case neg =>
            simp [vak_not_pro digest now s cred k sub hfk hfs hak hsub hpro]
          case pos =>
            by_cases hact : sub.status = "active"
            case pos =>
              cases hft : s.fail_touch with
              | true =>
                simp [vak_touch_fail digest now s cred k sub hfk hfs hak hsub
                  hpro (Or.inl hact) hft]
              | false =>
                simp [vak_success digest now s cred k sub hfk hfs hak hsub
                  hpro (Or.inl hact) hft]
            case neg =>
              by_cases htr : sub.status = "trial"
              case pos =>
                cases hft : s.fail_touch with
                | true =>
                  simp [vak_touch_fail digest now s cred k sub hfk hfs hak hsub
                    hpro (Or.inr htr) hft]
                | false =>
                  simp [vak_success digest now s cred k sub hfk hfs hak hsub
                    hpro (Or.inr htr) hft]
              case neg =>
                simp [vak_bad_status digest now s cred k sub hfk hfs hak hsub
                  hpro hact htr]

theorem appendLog_ok (s : Store) (entry : UsageLog)
    (h : s.fail_log_insert = false) :
    s.appendLog entry = .ok { s with usage_logs := s.usage_logs ++ [entry] } := by
  simp [Store.appendLog, h]

theorem incrementDaily_ok (s : Store) (uid : Nat) (date : String) (dv df : Nat)
    (h : s.fail_usage_increment = false) :
    ∃ s2, s.incrementDaily uid date dv df = .ok s2 := by
  unfold Store.incrementDaily
  rw [if_neg (by simp [h])]
  split
  · exact ⟨_, rfl⟩
  · exact ⟨_, rfl⟩

/-- C1: for every raw credential, `verify_api_key` returns an `AuthContext`
iff the digest maps to an active key record whose owner has a subscription
with plan tier pro and status active or trial; every other combination fails
with the specific corresponding error (401 invalid key, 403 no subscription,
403 wrong plan, 403 inactive status), and the usage tables never change. -/
theorem authenticate_iff_pro_active (digest : String → String) (now : String)
    (s : Store) (cred : String)
    (hk : s.fail_key_lookup = false) (hs : s.fail_sub_lookup = false)
    (ht : s.fail_touch = false) :
    ((∃ ctx, (verify_api_key digest now s cred).1 = .ok ctx) ↔
      ∃ k, s.activeKey (digest cred) = some k ∧
        ∃ sub, s.subFor k.user_id = some sub ∧ sub.plan_type = "pro" ∧
          (sub.status = "active" ∨ sub.status = "trial")) ∧
    (s.activeKey (digest cred) = none →
      (verify_api_key digest now s cred).1 = .error ⟨401, "Invalid API key"⟩) ∧
    (∀ k, s.activeKey (digest cred) = some k → s.subFor k.user_id = none →
      (verify_api_key digest now s cred).1 =
        .error ⟨403, "No active subscription"⟩) ∧
    (∀ k sub, s.activeKey (digest cred) = some k →
      s.subFor k.user_id = some sub → sub.plan_type ≠ "pro" →
      (verify_api_key digest now s cred).1 =
        .error ⟨403, "API access requires Pro plan"⟩) ∧
    (∀ k sub, s.activeKey (digest cred) = some k →
      s.subFor k.user_id = some sub → sub.plan_type = "pro" →
      sub.status ≠ "active" → sub.status ≠ "trial" →
      (verify_api_key digest now s cred).1 =
        .error ⟨403, "Subscription not active"⟩) ∧
    (verify_api_key digest now s cred).2.usage_logs = s.usage_logs ∧
    (verify_api_key digest now s cred).2.daily_usage = s.daily_usage := by
  refine ⟨⟨?_, ?_⟩, ?_, ?_, ?_, ?_,
    (vak_usage_tables digest now s cred).1, (vak_usage_tables digest now s cred).2⟩
  · rintro ⟨ctx, hctx⟩
    obtain ⟨k, hak, hsub, hpro, hst, -, -⟩ :=
      vak_ok_inv digest now s cred ctx hctx
    exact ⟨k, hak, ctx.subscription, hsub, hpro, hst⟩
  · rintro ⟨k, hak, sub, hsub, hpro, hst⟩
    rw [vak_success digest now s cred k sub hk hs hak hsub hpro hst ht]
    exact ⟨_, rfl⟩
  · intro h
    rw [vak_no_key digest now s cred hk h]
  · intro k hak hn
    rw [vak_no_sub digest now s cred k hk hs hak hn]
  · intro k sub hak hsub hnp
    rw [vak_not_pro digest now s cred k sub hk hs hak hsub hnp]
  · intro k sub hak hsub hpro hna hnt
    rw [vak_bad_status digest now s cred k sub hk hs hak hsub hpro hna hnt]

theorem authenticate_iff_pro_active_witness :
    baseStore.fail_key_lookup = false ∧ baseStore.fail_sub_lookup = false ∧
    baseStore.fail_touch = false ∧
    ∃ ctx, (verify_api_key (fun _ => "h") "now" baseStore "secret").1 =
      .ok ctx :=
  ⟨rfl, rfl, rfl,
    (authenticate_iff_pro_active (fun _ => "h") "now" baseStore "secret"
      rfl rfl rfl).1.mpr
      ⟨{ id := 1, key_hash := "h", user_id := 7, is_active := true,
         last_used_at := none }, rfl,
       { user_id := 7, plan_type := "pro", status := "active" }, rfl, rfl,
       Or.inl rfl⟩⟩

/-- C4: an authenticated bulk call with more than 1000 emails fails with the
400 validation error, makes zero Verifier calls (empty probe list) and records
zero usage (the Store is returned unchanged). -/
theorem bulk_over_limit_validation (v : Verifier) (s : Store)
    (auth : AuthContext) (emails : List String) (cs cca : Bool)
    (today : String) (h : emails.length > 1000) :
    verify_bulk v s auth emails cs cca today =
      (.error ⟨400, "Maximum 1000 emails per request"⟩, s, []) := by
  simp [verify_bulk, h]

theorem bulk_over_limit_validation_witness :
    (List.replicate 1001 "a@x.co").length > 1000 ∧
    verify_bulk wEmptyVerifier baseStore wAuth (List.replicate 1001 "a@x.co")
      true true "2026-10-12" =
      (.error ⟨400, "Maximum 1000 emails per request"⟩, baseStore, []) :=
  ⟨by rw [List.length_replicate]; omega,
   bulk_over_limit_validation _ _ _ _ _ _ _
     (by rw [List.length_replicate]; omega)⟩

/-- C9: when the pattern generator returns no candidates, find fails with the
404 not-found error, no Verifier.verify call is made (empty probe list) and no
usage is recorded (the Store is returned unchanged). -/
theorem find_empty_candidates_not_found (v : Verifier) (s : Store)
    (auth : AuthContext) (fn ln dom today : String)
    (h : v.generate_email_patterns fn ln dom = []) :
    find_email v s auth fn ln dom today =
      (.error ⟨404, "Could not find email"⟩, s, []) := by
  simp [find_email, h, findScan]

theorem find_empty_candidates_not_found_witness :
    wEmptyVerifier.generate_email_patterns "jane" "doe" "x.co" = [] ∧
    find_email wEmptyVerifier baseStore wAuth "jane" "doe" "x.co"
      "2026-10-12" =
      (.error ⟨404, "Could not find email"⟩, baseStore, []) :=
  ⟨rfl, find_empty_candidates_not_found _ _ _ _ _ _ _ rfl⟩

/-- C6 counterexample: a store where the credential passes every
authentication check (active key, pro plan, active status) but the last-used
update fails; `verify_api_key` does not return the context — it fails with a
500 — refuting the claim that a failed timestamp update leaves the
authentication outcome unchanged. -/
theorem touch_failure_changes_outcome_cex :
    ({ baseStore with fail_touch := true } : Store).activeKey "h" =
      some { id := 1, key_hash := "h", user_id := 7, is_active := true,
             last_used_at := none } ∧
    ({ baseStore with fail_touch := true } : Store).subFor 7 =
      some { user_id := 7, plan_type := "pro", status := "active" } ∧
    (verify_api_key (fun _ => "h") "now"
        { baseStore with fail_touch := true } "secret").1 =
      .error ⟨500, "store error"⟩ :=
  ⟨rfl, rfl, rfl⟩

/-- C6 (amended): for every credential that passes all authentication and
authorization checks, a failure of the Store call that updates the key's
last-used timestamp makes `verify_api_key` fail with a 500 store error
instead of returning the `AuthContext`: the update is synchronous and
blocking to the decision, and the store is left unchanged. -/
theorem touch_failure_blocks_auth (digest : String → String) (now : String)
    (s : Store) (cred : String) (k : KeyRecord) (sub : Subscription)
    (hk : s.fail_key_lookup = false) (hs : s.fail_sub_lookup = false)
    (hkey : s.activeKey (digest cred) = some k)
    (hsub : s.subFor k.user_id = some sub)
    (hpro : sub.plan_type = "pro")
    (hst : sub.status = "active" ∨ sub.status = "trial")
    (ht : s.fail_touch = true) :
    verify_api_key digest now s cred = (.error ⟨500, "store error"⟩, s) :=
  vak_touch_fail digest now s cred k sub hk hs hkey hsub hpro hst ht

theorem touch_failure_blocks_auth_witness :
    verify_api_key (fun _ => "h") "now" { baseStore with fail_touch := true }
      "secret" =
      (.error ⟨500, "store error"⟩, { baseStore with fail_touch := true }) :=
  touch_failure_blocks_auth (fun _ => "h") "now" _ "secret"
    { id := 1, key_hash := "h", user_id := 7, is_active := true,
      last_used_at := none }
    { user_id := 7, plan_type := "pro", status := "active" }
    rfl rfl rfl rfl rfl (Or.inl rfl) rfl

/-- The bulk loop maps the verifier over the emails when every call
succeeds, probing exactly the input list in order. -/
theorem bulkVerify_ok (v : Verifier) (cs cca : Bool) :
    ∀ {emails : List String} {rs : List VerificationResult},
    List.Forall₂ (fun e r => v.verify e cs cca = .ok r) emails rs →
    bulkVerify v cs cca emails = (.ok (rs.map toResponse), emails) := by
  intro emails rs h
  induction h with
  | nil => rfl
  | cons h1 _ ih => simp [bulkVerify, h1, ih]

/-- C7 counterexample: the single-verify operation itself succeeds but the
usage-log insert fails, and the successful result is not returned: the call
fails with a 500, refuting the claim that a usage-recording failure does not
invalidate the operation's result. -/
theorem usage_failure_discards_result_cex :
    wHitVerifier.verify "a@x.co" true true =
      .ok (wResult "a@x.co" 10 (some true)) ∧
    (verify_email wHitVerifier { baseStore with fail_log_insert := true }
      wAuth "a@x.co" true true "2026-10-12").1 =
      .error ⟨500, "store error"⟩ :=
  ⟨rfl, rfl⟩

/-- C7 (amended): when either Store call that records usage fails after an
otherwise-successful main operation — the audit-log append or the
daily-counter increment — each of verify, verifyBulk and find fails with a
500 store error: the successful result is discarded rather than returned to
the caller. -/
theorem usage_failure_discards_result (v : Verifier) (s : Store)
    (auth : AuthContext) (email today fn ln dom : String) (cs cca : Bool)
    (emails : List String) (rs : List VerificationResult)
    (r rb : VerificationResult) (em : String) (probed : List String)
    (hrec : s.fail_log_insert = true ∨ s.fail_usage_increment = true)
    (hv : v.verify email cs cca = .ok r)
    (hbulk : List.Forall₂ (fun e r2 => v.verify e cs cca = .ok r2) emails rs)
    (hlen : emails.length ≤ 1000)
    (hscan : findScan v none (v.generate_email_patterns fn ln dom) =
      (.ok (some (em, rb)), probed)) :
    (verify_email v s auth email cs cca today).1 =
      .error ⟨500, "store error"⟩ ∧
    (verify_bulk v s auth emails cs cca today).1 =
      .error ⟨500, "store error"⟩ ∧
    (find_email v s auth fn ln dom today).1 =
      .error ⟨500, "store error"⟩ := by
  have hnl : ¬ emails.length > 1000 := by omega
  cases hlog : s.fail_log_insert with
  | true =>
    refine ⟨?_, ?_, ?_⟩
    · simp [verify_email, hv, Store.appendLog, hlog]
    · simp [verify_bulk, hnl, bulkVerify_ok v cs cca hbulk, Store.appendLog,
        hlog]
    · simp [find_email, hscan, Store.appendLog, hlog]
  | false =>
    have hinc : s.fail_usage_increment = true := by
      rcases hrec with h | h
      · rw [hlog] at h
        exact absurd h Bool.false_ne_true
      · exact h
    refine ⟨?_, ?_, ?_⟩
    · simp [verify_email, hv, Store.appendLog, hlog, Store.incrementDaily,
        hinc]
    · simp [verify_bulk, hnl, bulkVerify_ok v cs cca hbulk, Store.appendLog,
        hlog, Store.incrementDaily, hinc]
    · simp [find_email, hscan, Store.appendLog, hlog, Store.incrementDaily,
        hinc]

theorem usage_failure_discards_result_witness :
    (({ baseStore with fail_log_insert := true } : Store).fail_log_insert
        = true ∨
      ({ baseStore with fail_log_insert := true } : Store).fail_usage_increment
        = true) ∧
    (({ baseStore with fail_usage_increment := true } : Store).fail_log_insert
        = true ∨
      ({ baseStore with
          fail_usage_increment := true } : Store).fail_usage_increment
        = true) ∧
    ((verify_email wHitVerifier { baseStore with fail_log_insert := true }
        wAuth "a@x.co" true true "2026-10-12").1 =
      .error ⟨500, "store error"⟩ ∧
    (verify_bulk wHitVerifier { baseStore with fail_log_insert := true }
        wAuth ["a@x.co"] true true "2026-10-12").1 =
      .error ⟨500, "store error"⟩ ∧
    (find_email wHitVerifier { baseStore with fail_log_insert := true }
        wAuth "jane" "doe" "x.co" "2026-10-12").1 =
      .error ⟨500, "store error"⟩) ∧
    ((verify_email wHitVerifier { baseStore with fail_usage_increment := true }
        wAuth "a@x.co" true true "2026-10-12").1 =
      .error ⟨500, "store error"⟩ ∧
    (verify_bulk wHitVerifier { baseStore with fail_usage_increment := true }
        wAuth ["a@x.co"] true true "2026-10-12").1 =
      .error ⟨500, "store error"⟩ ∧
    (find_email wHitVerifier { baseStore with fail_usage_increment := true }
        wAuth "jane" "doe" "x.co" "2026-10-12").1 =
      .error ⟨500, "store error"⟩) :=
  ⟨Or.inl rfl, Or.inr rfl,
    usage_failure_discards_result wHitVerifier _ wAuth "a@x.co" "2026-10-12"
      "jane" "doe" "x.co" true true ["a@x.co"]
      [wResult "a@x.co" 10 (some true)] (wResult "a@x.co" 10 (some true))
      (wResult "a@x.co" 10 (some true)) "a@x.co" ["a@x.co"]
      (Or.inl rfl) rfl (List.Forall₂.cons rfl List.Forall₂.nil)
      (by decide) rfl,
    usage_failure_discards_result wHitVerifier _ wAuth "a@x.co" "2026-10-12"
      "jane" "doe" "x.co" true true ["a@x.co"]
      [wResult "a@x.co" 10 (some true)] (wResult "a@x.co" 10 (some true))
      (wResult "a@x.co" 10 (some true)) "a@x.co" ["a@x.co"]
      (Or.inr rfl) rfl (List.Forall₂.cons rfl List.Forall₂.nil)
      (by decide) rfl⟩

/-- C8: a Store failure during the key or the subscription lookup surfaces as
a 500 store error, never as the 401 invalid-credential error, and the 401 is
produced only when the key lookup completes and finds no matching active
key. -/
theorem store_failure_not_invalid_credential (digest : String → String)
    (now : String) (s : Store) (cred : String) :
    (s.fail_key_lookup = true →
      verify_api_key digest now s cred = (.error ⟨500, "store error"⟩, s)) ∧
    (∀ k, s.fail_key_lookup = false → s.fail_sub_lookup = true →
      s.activeKey (digest cred) = some k →
      verify_api_key digest now s cred = (.error ⟨500, "store error"⟩, s)) ∧
    (∀ d, (verify_api_key digest now s cred).1 = .error ⟨401, d⟩ →
      s.fail_key_lookup = false ∧ s.activeKey (digest cred) = none) := by
  refine ⟨fun h => vak_key_fail digest now s cred h,
    fun k hk hs hkey => vak_sub_fail digest now s cred k hk hkey hs, ?_⟩
  intro d hd
  cases hfk : s.fail_key_lookup with
  | true => rw [vak_key_fail digest now s cred hfk] at hd; simp at hd
  | false =>
    cases hak : s.activeKey (digest cred) with
    | none => exact ⟨rfl, rfl⟩
    | some k =>
      exfalso
      cases hfs : s.fail_sub_lookup with
      | true =>
        rw [vak_sub_fail digest now s cred k hfk hak hfs] at hd
        simp at hd
      | false =>
        cases hsub : s.subFor k.user_id with
        | none =>
          rw [vak_no_sub digest now s cred k hfk hfs hak hsub] at hd
          simp at hd
        | some sub =>
          by_cases hpro : sub.plan_type = "pro"
          case neg =>
            rw [vak_not_pro digest now s cred k sub hfk hfs hak hsub hpro]
              at hd
            simp at hd
          case pos =>
            by_cases hact : sub.status = "active"
            case pos =>
              cases hft : s.fail_touch with
              | true =>
                rw [vak_touch_fail digest now s cred k sub hfk hfs hak hsub
                  hpro (Or.inl hact) hft] at hd
                simp at hd
              | false =>
                rw [vak_success digest now s cred k sub hfk hfs hak hsub
                  hpro (Or.inl hact) hft] at hd
                simp at hd
            case neg =>
              by_cases htr : sub.status = "trial"
              case pos =>
                cases hft : s.fail_touch with
                | true =>
                  rw [vak_touch_fail digest now s cred k sub hfk hfs hak hsub
                    hpro (Or.inr htr) hft] at hd
                  simp at hd
                | false =>
                  rw [vak_success digest now s cred k sub hfk hfs hak hsub
                    hpro (Or.inr htr) hft] at hd
                  simp at hd
              case neg =>
                rw [vak_bad_status digest now s cred k sub hfk hfs hak hsub
                  hpro hact htr] at hd
                simp at hd

theorem store_failure_not_invalid_credential_witness :
    ({ baseStore with fail_key_lookup := true } : Store).fail_key_lookup
      = true ∧
    verify_api_key (fun _ => "h") "now"
      { baseStore with fail_key_lookup := true } "secret" =
      (.error ⟨500, "store error"⟩,
        { baseStore with fail_key_lookup := true }) :=
  ⟨rfl,
    (store_failure_not_invalid_credential (fun _ => "h") "now"
      { baseStore with fail_key_lookup := true } "secret").1 rfl⟩

/-- C10: any auth context produced by a successful `verify_api_key` carries a
pro-plan subscription, so the `/usage` limits field always reports the daily
limit as unlimited, for every store state and every day: the free-plan branch
that would report a limit of 100 is unreachable behind authentication. -/
theorem usage_limits_always_unlimited (digest : String → String)
    (now : String) (s : Store) (cred : String) (ctx : AuthContext)
    (s2 : Store) (today : String) (resp : UsageResponse)
    (hauth : (verify_api_key digest now s cred).1 = .ok ctx)
    (husage : get_usage s2 ctx today = .ok resp) :
    resp.plan = "pro" ∧ resp.daily_limit = LimitValue.unlimited := by
  obtain ⟨k, -, -, hpro, -, -, -⟩ := vak_ok_inv digest now s cred ctx hauth
  unfold get_usage at husage
  cases hf : s2.fail_usage_read with
  | true => rw [hf] at husage; simp at husage
  | false =>
    rw [hf] at husage
    simp at husage
    subst husage
    simp [hpro]

theorem usage_limits_always_unlimited_witness :
    wUsageResp.plan = "pro" ∧ wUsageResp.daily_limit = LimitValue.unlimited :=
  usage_limits_always_unlimited (fun _ => "h") "now" baseStore "secret" wAuth
    baseStore "2026-10-12" wUsageResp rfl rfl

/-- C5: an authenticated bulk call with at most 1000 emails in which every
Verifier call succeeds returns one response per input email, probes the
emails strictly in input order, and the response at each index is exactly the
Verifier result for the input email at that index. -/
theorem bulk_in_order_results (v : Verifier) (s : Store) (auth : AuthContext)
    (emails : List String) (cs cca : Bool) (today : String)
    (rs : List VerificationResult)
    (hall : List.Forall₂ (fun e r => v.verify e cs cca = .ok r) emails rs)
    (hlen : emails.length ≤ 1000)
    (hlog : s.fail_log_insert = false)
    (hinc : s.fail_usage_increment = false) :
    ∃ s2, verify_bulk v s auth emails cs cca today =
        (.ok (rs.map toResponse), s2, emails) ∧
      (rs.map toResponse).length = emails.length ∧
      ∀ i, ∀ hi : i < emails.length, ∀ hri : i < rs.length,
        v.verify (emails.get ⟨i, hi⟩) cs cca = .ok (rs.get ⟨i, hri⟩) := by
  have hnl : ¬ emails.length > 1000 := by omega
  have hlog1 : ({ s with usage_logs := s.usage_logs ++
      [⟨auth.user_id, auth.api_key_id, "bulk_verify", emails.length, true⟩] }
        : Store).fail_usage_increment = false := hinc
  obtain ⟨s2, hs2⟩ := incrementDaily_ok _ auth.user_id today emails.length 0
    hlog1
  refine ⟨s2, ?_, by simp [hall.length_eq], fun i hi hri => hall.get hi hri⟩
  simp [verify_bulk, hnl, bulkVerify_ok v cs cca hall,
    appendLog_ok s _ hlog, hs2]

theorem bulk_in_order_results_witness :
    (["a@x.co", "b@x.co", "c@x.co"] : List String).length ≤ 1000 ∧
    ∃ s2, verify_bulk wFindVerifier baseStore wAuth
        ["a@x.co", "b@x.co", "c@x.co"] true true "2026-10-12" =
        (.ok ([wResult "a@x.co" 80 none, wResult "b@x.co" 90 none,
          wResult "c@x.co" 85 none].map toResponse), s2,
          ["a@x.co", "b@x.co", "c@x.co"]) ∧
      ([wResult "a@x.co" 80 none, wResult "b@x.co" 90 none,
        wResult "c@x.co" 85 none].map toResponse).length =
        (["a@x.co", "b@x.co", "c@x.co"] : List String).length ∧
      ∀ i, ∀ hi : i < (["a@x.co", "b@x.co", "c@x.co"] : List String).length,
        ∀ hri : i < ([wResult "a@x.co" 80 none, wResult "b@x.co" 90 none,
          wResult "c@x.co" 85 none] : List VerificationResult).length,
        wFindVerifier.verify
            ((["a@x.co", "b@x.co", "c@x.co"] : List String).get ⟨i, hi⟩)
            true true =
          .ok (([wResult "a@x.co" 80 none, wResult "b@x.co" 90 none,
            wResult "c@x.co" 85 none] : List VerificationResult).get
              ⟨i, hri⟩) :=
  ⟨by decide,
    bulk_in_order_results wFindVerifier baseStore wAuth
      ["a@x.co", "b@x.co", "c@x.co"] true true "2026-10-12"
      [wResult "a@x.co" 80 none, wResult "b@x.co" 90 none,
        wResult "c@x.co" 85 none]
      (List.Forall₂.cons rfl (List.Forall₂.cons rfl
        (List.Forall₂.cons rfl List.Forall₂.nil)))
      (by decide) rfl rfl⟩

/-- Early exit of the discovery loop: whatever the accumulated best, as soon
as a candidate comes back SMTP-confirmed the scan stops there, probing only
the candidates up to and including the hit. -/
theorem findScan_early_exit (v : Verifier) (hit : String)
    (rHit : VerificationResult) (post : List String)
    (hhit : v.verify hit true true = .ok rHit)
    (hsmtp : rHit.smtp_verified = some true) :
    ∀ {pre : List String} {rsPre : List VerificationResult}
      (best : Option (String × VerificationResult)),
    List.Forall₂ (fun e r => v.verify e true true = .ok r) pre rsPre →
    (∀ r ∈ rsPre, r.smtp_verified ≠ some true) →
    findScan v best (pre ++ hit :: post) =
      (.ok (some (hit, rHit)), pre ++ [hit]) := by
  intro pre rsPre best hall hns
  induction hall generalizing best with
  | nil => simp [findScan, hhit, hsmtp]
  | cons h1 h2 ih =>
    rename_i e r es rs
    have hr : r.smtp_verified ≠ some true := hns r (by simp)
    simp [findScan, h1, hr,
      ih (betterOf best e r) (fun x hx => hns x (by simp [hx]))]

/-- C3: when the candidate sequence splits as `pre ++ hit :: post` with no
candidate of `pre` SMTP-confirmed and `hit` SMTP-confirmed, find returns the
hit's result immediately: the probed list is exactly `pre ++ [hit]` (nothing
after the hit is probed) and the hit's result is returned regardless of every
candidate's confidence score. -/
theorem find_early_exit_on_smtp (v : Verifier) (s : Store)
    (auth : AuthContext) (fn ln dom today : String)
    (pre post : List String) (hit : String)
    (rsPre : List VerificationResult) (rHit : VerificationResult)
    (hpat : v.generate_email_patterns fn ln dom = pre ++ hit :: post)
    (hpre : List.Forall₂ (fun e r => v.verify e true true = .ok r) pre rsPre)
    (hns : ∀ r ∈ rsPre, r.smtp_verified ≠ some true)
    (hhit : v.verify hit true true = .ok rHit)
    (hsmtp : rHit.smtp_verified = some true)
    (hlog : s.fail_log_insert = false)
    (hinc : s.fail_usage_increment = false) :
    ∃ s2, find_email v s auth fn ln dom today =
      (.ok (toResponse rHit), s2, pre ++ [hit]) := by
  have hlog1 : ({ s with usage_logs := s.usage_logs ++
      [⟨auth.user_id, auth.api_key_id, "find", 1, true⟩] }
        : Store).fail_usage_increment = false := hinc
  obtain ⟨s2, hs2⟩ := incrementDaily_ok _ auth.user_id today 0 1 hlog1
  refine ⟨s2, ?_⟩
  simp [find_email, hpat,
    findScan_early_exit v hit rHit post hhit hsmtp none hpre hns,
    appendLog_ok s _ hlog, hs2]

theorem find_early_exit_on_smtp_witness :
    wHitVerifier.generate_email_patterns "jane" "doe" "x.co" =
      [] ++ "a@x.co" :: ["b@x.co"] ∧
    wHitVerifier.verify "a@x.co" true true =
      .ok (wResult "a@x.co" 10 (some true)) ∧
    (wResult "a@x.co" 10 (some true)).smtp_verified = some true ∧
    ∃ s2, find_email wHitVerifier baseStore wAuth "jane" "doe" "x.co"
      "2026-10-12" =
      (.ok (toResponse (wResult "a@x.co" 10 (some true))), s2,
        [] ++ ["a@x.co"]) :=
  ⟨rfl, rfl, rfl,
    find_early_exit_on_smtp wHitVerifier baseStore wAuth "jane" "doe" "x.co"
      "2026-10-12" [] ["b@x.co"] "a@x.co" []
      (wResult "a@x.co" 10 (some true)) rfl List.Forall₂.nil
      (by simp) rfl rfl rfl rfl⟩

/-- When no candidate comes back SMTP-confirmed and every verify call
succeeds, the discovery loop probes every candidate and computes exactly the
strict-greater fold over the (candidate, result) pairs. -/
theorem findScan_no_smtp (v : Verifier) :
    ∀ {cands : List String} {rs : List VerificationResult}
      (best : Option (String × VerificationResult)),
    List.Forall₂ (fun e r => v.verify e true true = .ok r) cands rs →
    (∀ r ∈ rs, r.smtp_verified ≠ some true) →
    findScan v best cands = (.ok (selectBest best (cands.zip rs)), cands) := by
  intro cands rs best hall hns
  induction hall generalizing best with
  | nil => simp [findScan, selectBest]
  | cons h1 h2 ih =>
    rename_i e r es rs2
    have hr : r.smtp_verified ≠ some true := hns r (by simp)
    simp [findScan, selectBest, List.zip, h1, hr,
      ih (betterOf best e r) (fun x hx => hns x (by simp [hx]))]

/-- The strict-greater fold starting from a set best either keeps it (when
nothing beats it strictly) or lands on the first element that strictly
dominates everything before it and is not strictly beaten afterwards. -/
theorem selectBest_some_spec :
    ∀ (l : List (String × VerificationResult))
      (b : String × VerificationResult),
    (selectBest (some b) l = some b ∧
      ∀ x ∈ l, x.2.confidence_score ≤ b.2.confidence_score) ∨
    ∃ i, ∃ hi : i < l.length,
      selectBest (some b) l = some (l.get ⟨i, hi⟩) ∧
      b.2.confidence_score < (l.get ⟨i, hi⟩).2.confidence_score ∧
      (∀ x ∈ l, x.2.confidence_score ≤ (l.get ⟨i, hi⟩).2.confidence_score) ∧
      ∀ j, ∀ hj : j < i,
        (l.get ⟨j, Nat.lt_trans hj hi⟩).2.confidence_score <
          (l.get ⟨i, hi⟩).2.confidence_score := by
  intro l
  induction l with
  | nil =>
    intro b
    left
    exact ⟨rfl, by simp⟩
  | cons x t ih =>
    intro b
    by_cases hgt : b.2.confidence_score < x.2.confidence_score
    · have hb : selectBest (some b) (x :: t) = selectBest (some x) t := by
        simp [selectBest, betterOf, hgt]
      rcases ih x with ⟨hsel, hle⟩ | ⟨i, hi, hsel, hlt, hle, hstrict⟩
      · right
        refine ⟨0, Nat.succ_pos t.length, ?_, ?_, ?_, ?_⟩
        · rw [hb, hsel]; simp
        · exact hgt
        · intro y hy
          rcases List.mem_cons.mp hy with rfl | hy
          · exact le_refl _
          · exact hle y hy
        · intro j hj
          exact absurd hj (Nat.not_lt_zero j)
      · right
        refine ⟨i + 1, Nat.succ_lt_succ hi, ?_, ?_, ?_, ?_⟩
        · rw [hb, hsel]; simp
        · exact lt_trans hgt hlt
        · intro y hy
          rcases List.mem_cons.mp hy with rfl | hy
          · exact le_of_lt hlt
          · exact hle y hy
        · intro j hj
          cases j with
          | zero => exact hlt
          | succ j2 => exact hstrict j2 (Nat.lt_of_succ_lt_succ hj)
    · have hb : selectBest (some b) (x :: t) = selectBest (some b) t := by
        simp [selectBest, betterOf, hgt]
      have hxb : x.2.confidence_score ≤ b.2.confidence_score :=
        not_lt.mp hgt
      rcases ih b with ⟨hsel, hle⟩ | ⟨i, hi, hsel, hlt, hle, hstrict⟩
      · left
        refine ⟨by rw [hb, hsel], ?_⟩
        intro y hy
        rcases List.mem_cons.mp hy with rfl | hy
        · exact hxb
        · exact hle y hy
      · right
        refine ⟨i + 1, Nat.succ_lt_succ hi, ?_, ?_, ?_, ?_⟩
        · rw [hb, hsel]; simp
        · exact hlt
        · intro y hy
          rcases List.mem_cons.mp hy with rfl | hy
          · exact le_trans hxb (le_of_lt hlt)
          · exact hle y hy
        · intro j hj
          cases j with
          | zero => exact lt_of_le_of_lt hxb hlt
          | succ j2 => exact hstrict j2 (Nat.lt_of_succ_lt_succ hj)

/-- Over a nonempty pair list, the strict-greater fold from an unset best
returns the earliest pair whose score equals the maximum: its score bounds
every element and strictly exceeds every earlier element. -/
theorem selectBest_none_spec (l : List (String × VerificationResult))
    (hne : l ≠ []) :
    ∃ i, ∃ hi : i < l.length,
      selectBest none l = some (l.get ⟨i, hi⟩) ∧
      (∀ x ∈ l, x.2.confidence_score ≤ (l.get ⟨i, hi⟩).2.confidence_score) ∧
      ∀ j, ∀ hj : j < i,
        (l.get ⟨j, Nat.lt_trans hj hi⟩).2.confidence_score <
          (l.get ⟨i, hi⟩).2.confidence_score := by
  cases l with
  | nil => exact absurd rfl hne
  | cons x t =>
    have hb : selectBest none (x :: t) = selectBest (some x) t := by
      simp [selectBest, betterOf]
    rcases selectBest_some_spec t x with ⟨hsel, hle⟩ |
      ⟨i, hi, hsel, hlt, hle, hstrict⟩
    · refine ⟨0, Nat.succ_pos t.length, by rw [hb, hsel]; simp, ?_, ?_⟩
      · intro y hy
        rcases List.mem_cons.mp hy with rfl | hy
        · exact le_refl _
        · exact hle y hy
      · intro j hj
        exact absurd hj (Nat.not_lt_zero j)
    · refine ⟨i + 1, Nat.succ_lt_succ hi, by rw [hb, hsel]; simp, ?_, ?_⟩
      · intro y hy
        rcases List.mem_cons.mp hy with rfl | hy
        · exact le_of_lt hlt
        · exact hle y hy
      · intro j hj
        cases j with
        | zero => exact hlt
        | succ j2 => exact hstrict j2 (Nat.lt_of_succ_lt_succ hj)

/-- C2: over a nonempty candidate sequence in which no result is
SMTP-confirmed and every verify call succeeds, find probes every candidate
and returns the response of the earliest-seen candidate whose confidence
score equals the maximum: its score bounds every result and strictly exceeds
every earlier result, so equal scores never replace the incumbent. -/
theorem find_returns_first_strict_max (v : Verifier) (s : Store)
    (auth : AuthContext) (fn ln dom today : String)
    (rs : List VerificationResult)
    (hall : List.Forall₂ (fun e r => v.verify e true true = .ok r)
      (v.generate_email_patterns fn ln dom) rs)
    (hns : ∀ r ∈ rs, r.smtp_verified ≠ some true)
    (hne : v.generate_email_patterns fn ln dom ≠ [])
    (hlog : s.fail_log_insert = false)
    (hinc : s.fail_usage_increment = false) :
    ∃ i, ∃ hi : i < rs.length, ∃ s2,
      find_email v s auth fn ln dom today =
        (.ok (toResponse (rs.get ⟨i, hi⟩)), s2,
          v.generate_email_patterns fn ln dom) ∧
      (∀ r ∈ rs, r.confidence_score ≤ (rs.get ⟨i, hi⟩).confidence_score) ∧
      ∀ j, ∀ hj : j < i,
        (rs.get ⟨j, Nat.lt_trans hj hi⟩).confidence_score <
          (rs.get ⟨i, hi⟩).confidence_score := by
  set P := v.generate_email_patterns fn ln dom with hP
  have hlen : P.length = rs.length := hall.length_eq
  have hzlen : (P.zip rs).length = rs.length := by
    rw [List.length_zip, hlen, Nat.min_self]
  have hzne : P.zip rs ≠ [] := by
    intro hz
    have hlz := congrArg List.length hz
    rw [hzlen] at hlz
    simp at hlz
    subst hlz
    exact hne (List.eq_nil_of_length_eq_zero (by simpa using hlen))
  obtain ⟨i, hiz, hsel, hlez, hstrictz⟩ := selectBest_none_spec (P.zip rs) hzne
  have hi : i < rs.length := hzlen ▸ hiz
  have hip : i < P.length := by omega
  have hget : (P.zip rs).get ⟨i, hiz⟩ = (P.get ⟨i, hip⟩, rs.get ⟨i, hi⟩) := by
    simp [List.get_eq_getElem, List.getElem_zip]
  have hscan : findScan v none P = (.ok (selectBest none (P.zip rs)), P) :=
    findScan_no_smtp v none hall hns
  have hlog1 : ({ s with usage_logs := s.usage_logs ++
      [⟨auth.user_id, auth.api_key_id, "find", 1, true⟩] }
        : Store).fail_usage_increment = false := hinc
  obtain ⟨s2, hs2⟩ := incrementDaily_ok _ auth.user_id today 0 1 hlog1
  refine ⟨i, hi, s2, ?_, ?_, ?_⟩
  · simp [find_email, ← hP, hscan, hsel, hget, appendLog_ok s _ hlog, hs2]
  · intro r hr
    obtain ⟨j, hjr, rfl⟩ := List.getElem_of_mem hr
    have hjz : j < (P.zip rs).length := by omega
    have hx := hlez _ (List.get_mem (P.zip rs) j hjz)
    rw [hget] at hx
    have hgj : (P.zip rs).get ⟨j, hjz⟩ =
        (P.get ⟨j, by omega⟩, rs.get ⟨j, hjr⟩) := by
      simp [List.get_eq_getElem, List.getElem_zip]
    rw [hgj] at hx
    simpa [List.get_eq_getElem] using hx
  · intro j hj
    have h2 := hstrictz j hj
    simp only [List.get_eq_getElem, List.getElem_zip] at h2 ⊢
    exact h2

theorem find_returns_first_strict_max_witness :
    (∀ r ∈ wScores, r.smtp_verified ≠ some true) ∧
    wFindVerifier.generate_email_patterns "jane" "doe" "x.co" ≠ [] ∧
    ∃ i, ∃ hi : i < wScores.length, ∃ s2,
      find_email wFindVerifier baseStore wAuth "jane" "doe" "x.co"
          "2026-10-12" =
        (.ok (toResponse (wScores.get ⟨i, hi⟩)), s2,
          wFindVerifier.generate_email_patterns "jane" "doe" "x.co") ∧
      (∀ r ∈ wScores,
        r.confidence_score ≤ (wScores.get ⟨i, hi⟩).confidence_score) ∧
      ∀ j, ∀ hj : j < i,
        (wScores.get ⟨j, Nat.lt_trans hj hi⟩).confidence_score <
          (wScores.get ⟨i, hi⟩).confidence_score :=
  ⟨by decide, by decide,
    find_returns_first_strict_max wFindVerifier baseStore wAuth
      "jane" "doe" "x.co" "2026-10-12" wScores
      (List.Forall₂.cons rfl (List.Forall₂.cons rfl
        (List.Forall₂.cons rfl List.Forall₂.nil)))
      (by decide) (by decide) rfl rfl⟩

end LookingUp
